import Mathlib

/-!
Shallow embedding of src/src/async_throttler.py.

Conventions of the embedding:
* Monotonic clock values and the time window are rationals.
* The deque of timestamps is a list, oldest at the head; popleft drops the
  head, append adds at the tail.
* Exceptions are modelled with Except String.
* The aiohttp transport is an opaque parameter: a function from a url to
  either an exception message or a response (body text and status code).
* A user callback is modelled by its observable behaviour: it either returns
  normally or raises a given message; its invocation is recorded as an event.
* The consume loop of process_requests is run against a pre-loaded FIFO
  queue (a list); time passes only in the throttling sleep, every other
  operation is instantaneous.  The loop result distinguishes normal
  termination, blocking forever on an empty queue, and a crash by an
  uncaught exception.
-/

/-- State of an AsyncThrottler instance: the fields set in __init__
(the queue itself is passed separately to the loop). -/
structure AsyncThrottler where
  max_requests : Int
  time_window : Rat
  request_times : List Rat
  stop_signal_received : Bool
deriving DecidableEq

/-- The constructor __init__: assigns the fields.  The source performs no validation and
cannot fail, so the Except wrapper (a Python constructor may raise) always
returns ok. -/
def AsyncThrottler.init (max_requests : Int) (time_window : Rat) :
    Except String AsyncThrottler :=
  .ok ⟨max_requests, time_window, [], false⟩

/-- The while loop at the top of throttle: pop timestamps from the left
while the deque is non-empty and current_time - request_times[0] >= time_window. -/
def evict (time_window : Rat) (now : Rat) : List Rat → List Rat
  | [] => []
  | t :: ts => if time_window ≤ now - t then evict time_window now ts else t :: ts

/-- throttle: evict stale timestamps, then, when len(request_times) >= max_requests,
sleep max(0, time_window - (current_time - request_times[0])); finally append
current_time.  Returns the slept duration and the new state; indexing [0] on an
empty deque is the IndexError branch. -/
def AsyncThrottler.throttle (s : AsyncThrottler) (now : Rat) :
    Except String (Rat × AsyncThrottler) :=
  let ts := evict s.time_window now s.request_times
  if s.max_requests ≤ (ts.length : Int) then
    match ts with
    | [] => .error "IndexError"
    | t0 :: _ =>
      let time_to_wait := s.time_window - (now - t0)
      .ok (max 0 time_to_wait,
        ⟨s.max_requests, s.time_window, ts ++ [now], s.stop_signal_received⟩)
  else
    .ok (0, ⟨s.max_requests, s.time_window, ts ++ [now], s.stop_signal_received⟩)

/-- Observable behaviour of a user-supplied callback: it either returns or
raises a message. -/
inductive CBBehavior
  | retOk
  | throws (msg : String)
deriving DecidableEq

/-- RequestWrapper: a url plus an optional callback. -/
structure RequestWrapper where
  url : String
  callback : Option CBBehavior
deriving DecidableEq

/-- A transport response as seen by the code: the text body and the status. -/
structure Response where
  body : String
  status : Int
deriving DecidableEq

/-- Observable events of the dispatcher, in program order. -/
inductive Event
  | stopObserved
  | dispatched (url : String)
  | callbackInvoked (url : String) (data : String)
  | completed (url : String) (status : Int)
  | errorReport (url : String) (msg : String)
deriving DecidableEq

/-- handle_response: data = await response.text(); if a callback is present it
is called with data (and may itself raise).  Returns the emitted events and
the normal/exceptional outcome. -/
def RequestWrapper.handle_response (r : RequestWrapper) (resp : Response) :
    List Event × Except String Unit :=
  match r.callback with
  | none => ([], .ok ())
  | some .retOk => ([.callbackInvoked r.url resp.body], .ok ())
  | some (.throws m) => ([.callbackInvoked r.url resp.body], .error m)

/-- make_request: session.get(url) (the dispatch attempt), then
handle_response, then the success print; any exception from either is caught
by the except branch, which prints the single error line
composed of "Error fetching ", the url, ": " and the exception, and returns
normally. -/
def make_request (transport : String → Except String Response)
    (r : RequestWrapper) : List Event :=
  match transport r.url with
  | .error e =>
      [.dispatched r.url, .errorReport r.url ("Error fetching " ++ r.url ++ ": " ++ e)]
  | .ok resp =>
      match r.handle_response resp with
      | (evts, .ok _) => .dispatched r.url :: (evts ++ [.completed r.url resp.status])
      | (evts, .error e) =>
          .dispatched r.url ::
            (evts ++ [.errorReport r.url ("Error fetching " ++ r.url ++ ": " ++ e)])

/-- An element of the queue: the code mixes RequestWrapper objects and the
string sentinel "STOP" in one queue; equality against "STOP" distinguishes
them, which the embedding renders as a tagged union. -/
inductive QElem
  | stopSignal
  | item (r : RequestWrapper)
deriving DecidableEq

/-- Outcome of running process_requests against a pre-loaded queue: the loop
terminates, or blocks forever awaiting queue.get() on an empty queue, or
crashes on an uncaught exception (throttle's IndexError).  Every outcome
carries the timed event trace produced so far. -/
inductive LoopResult
  | terminated (trace : List (Rat × Event)) (final : AsyncThrottler) (clock : Rat)
  | blocked (trace : List (Rat × Event))
  | crashed (trace : List (Rat × Event)) (msg : String)
deriving DecidableEq

/-- The timed trace of a loop outcome. -/
def LoopResult.trace : LoopResult → List (Rat × Event)
  | .terminated tr _ _ => tr
  | .blocked tr => tr
  | .crashed tr _ => tr

/-- Whether the loop reached its normal exit (stop flag set and queue empty). -/
def LoopResult.isTerminated : LoopResult → Bool
  | .terminated _ _ _ => true
  | _ => false

/-- Prefix a list of timed events onto a loop outcome's trace. -/
def LoopResult.prepend (evts : List (Rat × Event)) : LoopResult → LoopResult
  | .terminated tr s c => .terminated (evts ++ tr) s c
  | .blocked tr => .blocked (evts ++ tr)
  | .crashed tr m => .crashed (evts ++ tr) m

/-- process_requests, run on a pre-loaded queue: while not
stop_signal_received or queue non-empty, pop; on "STOP" set the flag and
continue; otherwise throttle (advancing the clock by the slept duration) and
make_request.  An empty queue with the flag unset leaves the consumer
suspended in queue.get() forever. -/
def process_requests (transport : String → Except String Response) :
    List QElem → AsyncThrottler → Rat → LoopResult
  | q, s, clock =>
    if s.stop_signal_received && q.isEmpty then .terminated [] s clock
    else
      match q with
      | [] => .blocked []
      | .stopSignal :: rest =>
          (process_requests transport rest
            ⟨s.max_requests, s.time_window, s.request_times, true⟩ clock).prepend
            [(clock, .stopObserved)]
      | .item r :: rest =>
          match s.throttle clock with
          | .error e => .crashed [] e
          | .ok (w, s2) =>
              let d := clock + w
              (process_requests transport rest s2 d).prepend
                ((make_request transport r).map (fun ev => (d, ev)))

/-- The untimed event sequence of a loop outcome. -/
def eventsOf (res : LoopResult) : List Event :=
  res.trace.map Prod.snd

/-- The timestamps at which dispatch attempts (session.get calls) occur. -/
def dispatchTimes (tr : List (Rat × Event)) : List Rat :=
  tr.filterMap (fun p =>
    match p.2 with
    | .dispatched _ => some p.1
    | _ => none)

/-- How many of the given instants fall in the trailing window of length tw
ending at the instant inst (the half-open interval from inst - tw to inst). -/
def countInWindow (tw inst : Rat) (ts : List Rat) : Nat :=
  (ts.filter (fun t => decide (inst - tw < t) && decide (t ≤ inst))).length

/-- The event sequence the consume loop produces on a queue, one segment per
queue element, in FIFO order. -/
def canonicalEvents (transport : String → Except String Response) :
    List QElem → List Event
  | [] => []
  | .stopSignal :: rest => .stopObserved :: canonicalEvents transport rest
  | .item r :: rest => make_request transport r ++ canonicalEvents transport rest

/-! ## Projections of the event sequence -/

/-- The urls of the dispatch attempts, in order. -/
def dispatchedUrls (evs : List Event) : List String :=
  evs.filterMap (fun e =>
    match e with
    | .dispatched u => some u
    | _ => none)

/-- The urls whose completion callback was invoked, in order. -/
def handledUrls (evs : List Event) : List String :=
  evs.filterMap (fun e =>
    match e with
    | .callbackInvoked u _ => some u
    | _ => none)

/-- The urls of the WorkItems of a queue, in order, skipping stop signals. -/
def itemUrls : List QElem → List String
  | [] => []
  | .stopSignal :: rest => itemUrls rest
  | .item r :: rest => r.url :: itemUrls rest

/-- Whether processing this item reaches the callback invocation: the
transport returns a response and a callback is present. -/
def firesCallback (transport : String → Except String Response)
    (r : RequestWrapper) : Bool :=
  (transport r.url).isOk && r.callback.isSome

/-- The urls of the queue's items whose callback fires, in order. -/
def firedUrls (transport : String → Except String Response) :
    List QElem → List String
  | [] => []
  | .stopSignal :: rest => firedUrls transport rest
  | .item r :: rest =>
      if firesCallback transport r then r.url :: firedUrls transport rest
      else firedUrls transport rest

/-- Eviction as claim C2 states it literally: remove exactly the timestamps
strictly older than now - time_window.  Refinement definition written from
the claim's words, to be compared with evict. -/
def specEvictOlderThan (time_window now : Rat) (l : List Rat) : List Rat :=
  l.filter (fun t => decide (now - time_window ≤ t))

/-- The per-call contract of claim C2 as amended: evict exactly the
timestamps of age at least time_window; if at least max_requests remain,
wait max(0, time_window - (now - oldest)), else wait 0; in either case now
is appended.  Refinement definition written from the amended claim's words,
to be compared with throttle. -/
def recordAndGetWait (s : AsyncThrottler) (now : Rat) :
    Except String (Rat × AsyncThrottler) :=
  let kept := s.request_times.filter (fun t => decide (now - t < s.time_window))
  if s.max_requests ≤ (kept.length : Int) then
    match kept with
    | [] => .error "IndexError"
    | t0 :: _ =>
        .ok (max 0 (s.time_window - (now - t0)),
          ⟨s.max_requests, s.time_window, kept ++ [now], s.stop_signal_received⟩)
  else
    .ok (0, ⟨s.max_requests, s.time_window, kept ++ [now], s.stop_signal_received⟩)

/-- Whether any dispatch attempt occurs after the first stopObserved event. -/
def dispatchAfterStop : List Event → Bool
  | [] => false
  | .stopObserved :: rest =>
      rest.any (fun e =>
        match e with
        | .dispatched _ => true
        | _ => false)
  | _ :: rest => dispatchAfterStop rest

/-- The callback invocations of an event sequence: invoked url and the data
argument, in order. -/
def callbackInvocations (evs : List Event) : List (String × String) :=
  evs.filterMap (fun e =>
    match e with
    | .callbackInvoked u d => some (u, d)
    | _ => none)

/-! ## Basic lemmas about the throttler step -/

theorem eventsOf_prepend (e : List (Rat × Event)) (r : LoopResult) :
    eventsOf (r.prepend e) = e.map Prod.snd ++ eventsOf r := by
  cases r <;> simp [eventsOf, LoopResult.prepend, LoopResult.trace]

theorem isTerminated_prepend (e : List (Rat × Event)) (r : LoopResult) :
    (r.prepend e).isTerminated = r.isTerminated := by
  cases r <;> rfl

/-- When max_requests is at least 1, throttle never reaches the IndexError
branch: it returns some wait and the state whose deque is the evicted deque
with the current time appended. -/
theorem throttle_ok (s : AsyncThrottler) (now : Rat) (h : 1 ≤ s.max_requests) :
    ∃ w, s.throttle now =
      .ok (w, ⟨s.max_requests, s.time_window,
        evict s.time_window now s.request_times ++ [now], s.stop_signal_received⟩) := by
  simp only [AsyncThrottler.throttle]
  generalize evict s.time_window now s.request_times = ts
  rcases ts with _ | ⟨t0, tl⟩
  · have hc : ¬ s.max_requests ≤ ((List.length ([] : List Rat)) : Int) := by
      simp only [List.length_nil, Int.ofNat_zero, CharP.cast_eq_zero]
      omega
    rw [if_neg hc]
    exact ⟨0, rfl⟩
  · by_cases hc : s.max_requests ≤ (((t0 :: tl).length : Nat) : Int)
    · rw [if_pos hc]
      exact ⟨_, rfl⟩
    · rw [if_neg hc]
      exact ⟨0, rfl⟩

/-- On a sorted deque (which every reachable deque is, the clock being
monotone), the front-eviction while loop removes exactly the timestamps of
age at least time_window. -/
theorem evict_eq_filter (tw now : Rat) :
    ∀ l : List Rat, l.Pairwise (· ≤ ·) →
      evict tw now l = l.filter (fun t => decide (now - t < tw))
  | [], _ => rfl
  | t :: ts, hp => by
    rcases List.pairwise_cons.mp hp with ⟨hhead, htail⟩
    by_cases hc : tw ≤ now - t
    · have hd : (decide (now - t < tw)) = false := by
        simp only [decide_eq_false_iff_not, not_lt]
        exact hc
      simp only [evict, if_pos hc, List.filter_cons, hd]
      exact evict_eq_filter tw now ts htail
    · have hlt : now - t < tw := lt_of_not_le hc
      have hd : (decide (now - t < tw)) = true := by
        simpa using hlt
      simp only [evict, if_neg hc, List.filter_cons, hd]
      have : ts.filter (fun t => decide (now - t < tw)) = ts := by
        apply List.filter_eq_self.mpr
        intro a ha
        have h1 : t ≤ a := hhead a ha
        have : now - a < tw := lt_of_le_of_lt (by linarith) hlt
        simpa using this
      rw [this]
      simp

/-! ## The event sequence of the consume loop -/

/-- With max_requests at least 1 the loop never crashes: its event sequence
is exactly the canonical one, and it terminates precisely when the stop flag
is already set or a StopSignal sits in the queue. -/
theorem process_requests_spec (transport : String → Except String Response)
    (q : List QElem) : ∀ (s : AsyncThrottler) (clock : Rat), 1 ≤ s.max_requests →
      eventsOf (process_requests transport q s clock) = canonicalEvents transport q ∧
      ((process_requests transport q s clock).isTerminated = true ↔
        (s.stop_signal_received = true ∨ QElem.stopSignal ∈ q)) := by
  induction q with
  | nil =>
    intro s clock _
    cases hf : s.stop_signal_received with
    | true =>
      rw [process_requests]
      simp [hf, eventsOf, canonicalEvents, LoopResult.trace, LoopResult.isTerminated]
    | false =>
      rw [process_requests]
      simp [hf, eventsOf, canonicalEvents, LoopResult.trace, LoopResult.isTerminated]
  | cons x rest ih =>
    intro s clock h
    cases x with
    | stopSignal =>
      rw [process_requests]
      have hne : (QElem.stopSignal :: rest).isEmpty = false := rfl
      rcases ih ⟨s.max_requests, s.time_window, s.request_times, true⟩ clock h with
        ⟨ihev, ihterm⟩
      constructor
      · simp only [hne, Bool.and_false, Bool.false_eq_true, if_false, eventsOf_prepend,
          ihev, canonicalEvents]
        rfl
      · simp only [hne, Bool.and_false, Bool.false_eq_true, if_false, isTerminated_prepend,
          ihterm]
        simp
    | item r =>
      rw [process_requests]
      have hne : (QElem.item r :: rest).isEmpty = false := rfl
      rcases throttle_ok s clock h with ⟨w, hw⟩
      rcases ih ⟨s.max_requests, s.time_window,
          evict s.time_window clock s.request_times ++ [clock],
          s.stop_signal_received⟩ (clock + w) h with ⟨ihev, ihterm⟩
      constructor
      · simp only [hne, Bool.and_false, Bool.false_eq_true, if_false, hw,
          eventsOf_prepend, ihev, canonicalEvents, List.map_map]
        simp
      · simp only [hne, Bool.and_false, Bool.false_eq_true, if_false, hw,
          isTerminated_prepend, ihterm]
        simp

theorem dispatchedUrls_append (a b : List Event) :
    dispatchedUrls (a ++ b) = dispatchedUrls a ++ dispatchedUrls b := by
  simp [dispatchedUrls]

theorem handledUrls_append (a b : List Event) :
    handledUrls (a ++ b) = handledUrls a ++ handledUrls b := by
  simp [handledUrls]

/-- Every processed item produces exactly one dispatch attempt. -/
theorem dispatchedUrls_make_request (transport : String → Except String Response)
    (r : RequestWrapper) : dispatchedUrls (make_request transport r) = [r.url] := by
  unfold make_request
  rcases htr : transport r.url with e | resp
  · simp [dispatchedUrls]
  · rcases hcb : r.callback with _ | cb
    · simp [RequestWrapper.handle_response, hcb, dispatchedUrls]
    · cases cb <;> simp [RequestWrapper.handle_response, hcb, dispatchedUrls]

/-- An item's callback is invoked exactly once when the transport returns a
response and a callback is present, and never otherwise. -/
theorem handledUrls_make_request (transport : String → Except String Response)
    (r : RequestWrapper) :
    handledUrls (make_request transport r) =
      if firesCallback transport r then [r.url] else [] := by
  unfold make_request firesCallback
  rcases htr : transport r.url with e | resp
  · simp [handledUrls, Except.isOk, Except.toBool]
  · rcases hcb : r.callback with _ | cb
    · simp [RequestWrapper.handle_response, hcb, handledUrls, Except.isOk, Except.toBool]
    · cases cb <;>
        simp [RequestWrapper.handle_response, hcb, handledUrls, Except.isOk, Except.toBool]

theorem canonicalEvents_append (transport : String → Except String Response)
    (a b : List QElem) :
    canonicalEvents transport (a ++ b) =
      canonicalEvents transport a ++ canonicalEvents transport b := by
  induction a with
  | nil => rfl
  | cons x rest ih =>
    cases x with
    | stopSignal => simp [canonicalEvents, ih]
    | item r => simp [canonicalEvents, ih]

/-- Dispatch attempts occur for every item of the queue, in FIFO order. -/
theorem dispatchedUrls_canonical (transport : String → Except String Response)
    (q : List QElem) :
    dispatchedUrls (canonicalEvents transport q) = itemUrls q := by
  induction q with
  | nil => rfl
  | cons x rest ih =>
    cases x with
    | stopSignal =>
      simp only [canonicalEvents, itemUrls]
      simpa [dispatchedUrls] using ih
    | item r =>
      simp only [canonicalEvents, itemUrls, dispatchedUrls_append,
        dispatchedUrls_make_request, ih]
      rfl

/-- Callback invocations occur exactly for the items whose transport returns
and which carry a callback, in FIFO order. -/
theorem handledUrls_canonical (transport : String → Except String Response)
    (q : List QElem) :
    handledUrls (canonicalEvents transport q) = firedUrls transport q := by
  induction q with
  | nil => rfl
  | cons x rest ih =>
    cases x with
    | stopSignal =>
      simp only [canonicalEvents, firedUrls]
      simpa [handledUrls] using ih
    | item r =>
      simp only [canonicalEvents, firedUrls, handledUrls_append,
        handledUrls_make_request, ih]
      by_cases hf : firesCallback transport r = true
      · simp [hf]
      · simp [hf]

/-! ## Throttle-level helpers shared by several claims -/

/-- With max_requests at most 0 and an empty deque (the state right after
construction), throttle reaches the wait-computation branch and indexes the
empty deque: the IndexError branch. -/
theorem throttle_empty_error (mr : Int) (tw now : Rat) (h : mr ≤ 0) :
    AsyncThrottler.throttle ⟨mr, tw, [], false⟩ now = .error "IndexError" := by
  simp only [AsyncThrottler.throttle, evict]
  have hc : mr ≤ ((List.length ([] : List Rat)) : Int) := by
    simp only [List.length_nil, Int.ofNat_zero, CharP.cast_eq_zero]
    omega
  rw [if_pos hc]

/-! ## Claim C2 -/

/-- Claim C2, counterexample to the eviction clause: at now = 1 with
time_window = 1, the recorded timestamp 0 has age exactly time_window; it is
not older than now - time_window, yet throttle evicts it (the retained deque
after the call is [1], not [0, 1]), so the code's eviction differs from the
claimed evict-exactly-older-than eviction. -/
theorem C2_eviction_boundary_counterexample :
    evict 1 1 [0] = [] ∧
    specEvictOlderThan 1 1 [0] = [0] ∧
    AsyncThrottler.throttle ⟨1, 1, [0], false⟩ 1 = .ok (0, ⟨1, 1, [1], false⟩) ∧
    ¬ ((0 : Rat) < 1 - 1) := by
  refine ⟨by norm_num [evict], by norm_num [specEvictOlderThan],
    by norm_num [AsyncThrottler.throttle, evict], by norm_num⟩

/-- Claim C2 as amended: on a sorted deque of past timestamps, each throttle
call at time now behaves as recordAndGetWait: it evicts exactly the
timestamps of age at least time_window (so the retained ones lie in the
half-open interval from now - time_window, excluded, to now, included), then
waits max(0, time_window - (now - oldest)) when at least max_requests remain
and 0 otherwise, and appends now in both branches. -/
theorem C2_per_call_contract (s : AsyncThrottler) (now : Rat)
    (hs : s.request_times.Pairwise (· ≤ ·))
    (hb : ∀ t ∈ s.request_times, t ≤ now) :
    s.throttle now = recordAndGetWait s now ∧
    ∀ t ∈ evict s.time_window now s.request_times,
      now - s.time_window < t ∧ t ≤ now := by
  constructor
  · simp only [AsyncThrottler.throttle, recordAndGetWait]
    rw [evict_eq_filter _ _ _ hs]
  · intro t ht
    rw [evict_eq_filter _ _ _ hs] at ht
    have h1 : decide (now - t < s.time_window) = true := (List.mem_filter.mp ht).2
    have h2 : t ∈ s.request_times := (List.mem_filter.mp ht).1
    constructor
    · have : now - t < s.time_window := of_decide_eq_true h1
      linarith
    · exact hb t h2

/-- Witness for C2_per_call_contract at a concrete sorted state. -/
theorem C2_per_call_contract_witness :
    AsyncThrottler.throttle ⟨2, 10, [1, 3], false⟩ 4 =
      recordAndGetWait ⟨2, 10, [1, 3], false⟩ 4 ∧
    ∀ t ∈ evict (10 : Rat) 4 [1, 3], (4 : Rat) - 10 < t ∧ t ≤ 4 :=
  C2_per_call_contract ⟨2, 10, [1, 3], false⟩ 4
    (by norm_num [List.pairwise_cons]) (by norm_num)

/-! ## Claim C7 -/

/-- Claim C7, counterexample: constructing with max_requests = 0 (which is
at most 0) raises nothing and yields a usable instance, where the claim
demands an immediate ConfigurationError. -/
theorem C7_counterexample :
    AsyncThrottler.init 0 1 = .ok ⟨0, 1, [], false⟩ ∧ (0 : Int) ≤ 0 :=
  ⟨rfl, le_refl 0⟩

/-- Claim C7 as amended: construction performs no validation at all and
always succeeds, whatever max_requests and time_window are; the
misconfiguration max_requests at most 0 surfaces only later, as an
IndexError inside the first throttle call of the dispatcher. -/
theorem C7_no_construction_validation (mr : Int) (tw now : Rat) (h : mr ≤ 0) :
    AsyncThrottler.init mr tw = .ok ⟨mr, tw, [], false⟩ ∧
    AsyncThrottler.throttle ⟨mr, tw, [], false⟩ now = .error "IndexError" :=
  ⟨rfl, throttle_empty_error mr tw now h⟩

/-- Witness for C7_no_construction_validation at max_requests = 0. -/
theorem C7_no_construction_validation_witness :
    AsyncThrottler.init 0 1 = .ok ⟨0, 1, [], false⟩ ∧
    AsyncThrottler.throttle ⟨0, 1, [], false⟩ 0 = .error "IndexError" :=
  C7_no_construction_validation 0 1 0 (by decide)

/-! ## Claim C9 -/

/-- Claim C9: with max_requests at least 1 every throttle call, on any
state, stays clear of the IndexError branch (each deque index happens on a
non-empty deque); with max_requests = 0 the very first call, on the empty
deque of a fresh instance, reaches the wait computation and indexes the
empty deque, raising IndexError. -/
theorem C9_index_safety :
    (∀ (s : AsyncThrottler) (now : Rat), 1 ≤ s.max_requests →
      ∃ w s2, s.throttle now = .ok (w, s2)) ∧
    (∀ (tw now : Rat),
      AsyncThrottler.throttle ⟨0, tw, [], false⟩ now = .error "IndexError") := by
  constructor
  · intro s now h
    rcases throttle_ok s now h with ⟨w, hw⟩
    exact ⟨w, _, hw⟩
  · intro tw now
    exact throttle_empty_error 0 tw now (le_refl 0)

/-- Witness for C9_index_safety: both parts applied at concrete inputs. -/
theorem C9_index_safety_witness :
    (∃ w s2, AsyncThrottler.throttle ⟨1, 1, [], false⟩ 0 = .ok (w, s2)) ∧
    AsyncThrottler.throttle ⟨0, 1, [], false⟩ 0 = .error "IndexError" :=
  ⟨C9_index_safety.1 ⟨1, 1, [], false⟩ 0 (by decide), C9_index_safety.2 1 0⟩

/-! ## Queue-level helpers -/

theorem itemUrls_append (a b : List QElem) :
    itemUrls (a ++ b) = itemUrls a ++ itemUrls b := by
  induction a with
  | nil => rfl
  | cons x rest ih => cases x <;> simp [itemUrls, ih]

theorem firedUrls_append (transport : String → Except String Response)
    (a b : List QElem) :
    firedUrls transport (a ++ b) = firedUrls transport a ++ firedUrls transport b := by
  induction a with
  | nil => rfl
  | cons x rest ih =>
    cases x with
    | stopSignal => simp [firedUrls, ih]
    | item r =>
      by_cases hf : firesCallback transport r = true <;> simp [firedUrls, hf, ih]

/-! ## Claim C1 -/

/-- Claim C1 is violated by the code: with max_requests = 1, time_window =
10, a fresh throttler, three items and an instantaneous transport, the loop
dispatches at instants 0, 10 and 10.  Because throttle appends the
timestamp captured before its sleep and never re-evicts after sleeping, two
dispatch attempts fall inside the trailing 10-second window ending at
instant 10 — more than max_requests = 1. -/
theorem C1_window_violation :
    dispatchTimes (process_requests (fun _ => .ok ⟨"", 200⟩)
      [.item ⟨"u1", none⟩, .item ⟨"u2", none⟩, .item ⟨"u3", none⟩, .stopSignal]
      ⟨1, 10, [], false⟩ 0).trace = [0, 10, 10] ∧
    countInWindow 10 10 [0, 10, 10] = 2 ∧ 1 < 2 := by
  refine ⟨?_, ?_, by omega⟩
  · norm_num [process_requests, AsyncThrottler.throttle, evict, make_request,
      RequestWrapper.handle_response, LoopResult.prepend, LoopResult.trace,
      dispatchTimes, List.filterMap_cons]
  · norm_num [countInWindow, List.filter]

/-! ## Claim C3 -/

/-- Claim C3, counterexample: with queue [A, STOP, D] the loop pops the
StopSignal and then still dispatches D (the drain pops until the queue is
empty, dispatching WorkItems queued behind the StopSignal), so dispatch
attempts do occur after the StopSignal is popped. -/
theorem C3_counterexample :
    eventsOf (process_requests (fun _ => .ok ⟨"", 200⟩)
      [.item ⟨"A", none⟩, .stopSignal, .item ⟨"D", none⟩] ⟨5, 1, [], false⟩ 0) =
      [.dispatched "A", .completed "A" 200, .stopObserved,
        .dispatched "D", .completed "D" 200] ∧
    dispatchAfterStop
      (eventsOf (process_requests (fun _ => .ok ⟨"", 200⟩)
        [.item ⟨"A", none⟩, .stopSignal, .item ⟨"D", none⟩] ⟨5, 1, [], false⟩ 0)) =
      true := by
  have h : eventsOf (process_requests (fun _ => .ok ⟨"", 200⟩)
      [.item ⟨"A", none⟩, .stopSignal, .item ⟨"D", none⟩] ⟨5, 1, [], false⟩ 0) =
      [.dispatched "A", .completed "A" 200, .stopObserved,
        .dispatched "D", .completed "D" 200] := by
    norm_num [process_requests, AsyncThrottler.throttle, evict, make_request,
      RequestWrapper.handle_response, LoopResult.prepend, LoopResult.trace,
      eventsOf]
  refine ⟨h, ?_⟩
  rw [h]
  rfl

/-- Claim C3 as amended: popping the StopSignal sets the flag but the drain
continues to pop and dispatch until the queue is empty.  Every WorkItem
queued ahead of the StopSignal is dispatched before the StopSignal is
observed, every WorkItem queued behind it is dispatched after, and the loop
terminates (it exits exactly when the flag is set and the queue is empty). -/
theorem C3_drain_semantics (transport : String → Except String Response)
    (q1 q2 : List QElem) (s : AsyncThrottler) (clock : Rat)
    (h : 1 ≤ s.max_requests) :
    eventsOf (process_requests transport (q1 ++ .stopSignal :: q2) s clock) =
      canonicalEvents transport q1 ++ .stopObserved :: canonicalEvents transport q2 ∧
    (process_requests transport (q1 ++ .stopSignal :: q2) s clock).isTerminated =
      true ∧
    dispatchedUrls
        (eventsOf (process_requests transport (q1 ++ .stopSignal :: q2) s clock)) =
      itemUrls q1 ++ itemUrls q2 := by
  rcases process_requests_spec transport (q1 ++ .stopSignal :: q2) s clock h with
    ⟨hev, hterm⟩
  refine ⟨?_, ?_, ?_⟩
  · rw [hev, canonicalEvents_append]
    simp [canonicalEvents]
  · exact hterm.mpr (Or.inr (by simp))
  · rw [hev, dispatchedUrls_canonical, itemUrls_append]
    simp [itemUrls]

/-- Witness for C3_drain_semantics at a concrete queue [A, STOP, D]. -/
theorem C3_drain_semantics_witness :
    eventsOf (process_requests (fun _ => .ok ⟨"", 200⟩)
      ([.item ⟨"A", none⟩] ++ .stopSignal :: [.item ⟨"D", none⟩])
      ⟨5, 1, [], false⟩ 0) =
      canonicalEvents (fun _ => .ok ⟨"", 200⟩) [.item ⟨"A", none⟩] ++
        .stopObserved :: canonicalEvents (fun _ => .ok ⟨"", 200⟩) [.item ⟨"D", none⟩] ∧
    (process_requests (fun _ => .ok ⟨"", 200⟩)
      ([.item ⟨"A", none⟩] ++ .stopSignal :: [.item ⟨"D", none⟩])
      ⟨5, 1, [], false⟩ 0).isTerminated = true ∧
    dispatchedUrls (eventsOf (process_requests (fun _ => .ok ⟨"", 200⟩)
      ([.item ⟨"A", none⟩] ++ .stopSignal :: [.item ⟨"D", none⟩])
      ⟨5, 1, [], false⟩ 0)) =
      itemUrls [.item ⟨"A", none⟩] ++ itemUrls [.item ⟨"D", none⟩] :=
  C3_drain_semantics (fun _ => .ok ⟨"", 200⟩) [.item ⟨"A", none⟩]
    [.item ⟨"D", none⟩] ⟨5, 1, [], false⟩ 0 (by decide)

/-! ## Claim C4 -/

/-- Claim C4, counterexample: the transport returns a response with the
non-success status 500 and make_request still invokes the completion
handler with the body — the code never inspects response.status before
calling handle_response, where the claim says a non-success status must
suppress the handler. -/
theorem C4_counterexample :
    make_request (fun _ => .ok ⟨"Server Error", 500⟩) ⟨"u", some .retOk⟩ =
      [.dispatched "u", .callbackInvoked "u" "Server Error", .completed "u" 500] ∧
    ¬ (200 ≤ (500 : Int) ∧ (500 : Int) < 300) :=
  ⟨rfl, by omega⟩

/-- Claim C4 as amended: per dispatch the handler is invoked at most once,
with the raw response body, exactly when the transport call returns a
response without raising and a callback is present — regardless of the HTTP
status code; when the transport raises, the handler is not invoked. -/
theorem C4_handler_invocation (transport : String → Except String Response)
    (r : RequestWrapper) :
    callbackInvocations (make_request transport r) =
      (match transport r.url, r.callback with
       | .ok resp, some _ => [(r.url, resp.body)]
       | _, _ => []) ∧
    (callbackInvocations (make_request transport r)).length ≤ 1 := by
  have key : callbackInvocations (make_request transport r) =
      (match transport r.url, r.callback with
       | .ok resp, some _ => [(r.url, resp.body)]
       | _, _ => []) := by
    unfold make_request
    rcases htr : transport r.url with e | resp
    · simp [callbackInvocations]
    · rcases hcb : r.callback with _ | cb
      · simp [RequestWrapper.handle_response, hcb, callbackInvocations]
      · cases cb <;> simp [RequestWrapper.handle_response, hcb, callbackInvocations]
  refine ⟨key, ?_⟩
  rw [key]
  rcases htr : transport r.url with e | resp
  · simp
  · rcases hcb : r.callback with _ | cb <;> simp

/-! ## Claim C5 -/

/-- Claim C5: a transport failure on item B in the sequence [A, B, C] never
aborts the loop: the loop terminates normally, all three items are
dispatched in order, the handlers of A and C fire in order, and B's handler
never fires. -/
theorem C5_failure_isolation (transport : String → Except String Response)
    (s : AsyncThrottler) (clock : Rat) (a b c eb : String) (ra rc : Response)
    (h : 1 ≤ s.max_requests)
    (hA : transport a = .ok ra) (hB : transport b = .error eb)
    (hC : transport c = .ok rc) (hba : b ≠ a) (hbc : b ≠ c) :
    (process_requests transport
        [.item ⟨a, some .retOk⟩, .item ⟨b, some .retOk⟩, .item ⟨c, some .retOk⟩,
          .stopSignal] s clock).isTerminated = true ∧
    dispatchedUrls (eventsOf (process_requests transport
        [.item ⟨a, some .retOk⟩, .item ⟨b, some .retOk⟩, .item ⟨c, some .retOk⟩,
          .stopSignal] s clock)) = [a, b, c] ∧
    handledUrls (eventsOf (process_requests transport
        [.item ⟨a, some .retOk⟩, .item ⟨b, some .retOk⟩, .item ⟨c, some .retOk⟩,
          .stopSignal] s clock)) = [a, c] ∧
    b ∉ handledUrls (eventsOf (process_requests transport
        [.item ⟨a, some .retOk⟩, .item ⟨b, some .retOk⟩, .item ⟨c, some .retOk⟩,
          .stopSignal] s clock)) := by
  rcases process_requests_spec transport
      [.item ⟨a, some .retOk⟩, .item ⟨b, some .retOk⟩, .item ⟨c, some .retOk⟩,
        .stopSignal] s clock h with ⟨hev, hterm⟩
  have hfired : handledUrls (eventsOf (process_requests transport
      [.item ⟨a, some .retOk⟩, .item ⟨b, some .retOk⟩, .item ⟨c, some .retOk⟩,
        .stopSignal] s clock)) = [a, c] := by
    rw [hev, handledUrls_canonical]
    simp [firedUrls, firesCallback, hA, hB, hC, Except.isOk, Except.toBool]
  refine ⟨hterm.mpr (Or.inr (by simp)), ?_, hfired, ?_⟩
  · rw [hev, dispatchedUrls_canonical]
    simp [itemUrls]
  · rw [hfired]
    simp [hba, hbc]

/-- Witness for C5_failure_isolation: the transport fails exactly on url b. -/
theorem C5_failure_isolation_witness :
    (process_requests (fun u => if u = "b" then .error "boom" else .ok ⟨"ok", 200⟩)
        [.item ⟨"a", some .retOk⟩, .item ⟨"b", some .retOk⟩,
          .item ⟨"c", some .retOk⟩, .stopSignal] ⟨5, 1, [], false⟩ 0).isTerminated =
      true ∧
    dispatchedUrls (eventsOf (process_requests
        (fun u => if u = "b" then .error "boom" else .ok ⟨"ok", 200⟩)
        [.item ⟨"a", some .retOk⟩, .item ⟨"b", some .retOk⟩,
          .item ⟨"c", some .retOk⟩, .stopSignal] ⟨5, 1, [], false⟩ 0)) =
      ["a", "b", "c"] ∧
    handledUrls (eventsOf (process_requests
        (fun u => if u = "b" then .error "boom" else .ok ⟨"ok", 200⟩)
        [.item ⟨"a", some .retOk⟩, .item ⟨"b", some .retOk⟩,
          .item ⟨"c", some .retOk⟩, .stopSignal] ⟨5, 1, [], false⟩ 0)) =
      ["a", "c"] ∧
    "b" ∉ handledUrls (eventsOf (process_requests
        (fun u => if u = "b" then .error "boom" else .ok ⟨"ok", 200⟩)
        [.item ⟨"a", some .retOk⟩, .item ⟨"b", some .retOk⟩,
          .item ⟨"c", some .retOk⟩, .stopSignal] ⟨5, 1, [], false⟩ 0)) :=
  C5_failure_isolation (fun u => if u = "b" then .error "boom" else .ok ⟨"ok", 200⟩)
    ⟨5, 1, [], false⟩ 0 "a" "b" "c" "boom" ⟨"ok", 200⟩ ⟨"ok", 200⟩
    (by decide) rfl rfl rfl (by decide) (by decide)

/-! ## Claim C6 -/

/-- Claim C6: the single consumer dispatches the queued items strictly in
FIFO order — the sequence of dispatch attempts equals the sequence of
enqueued item urls — and the completion handlers fire in that same relative
order (the handler subsequence is the enqueued order restricted to the items
whose transport returns and which carry a callback). -/
theorem C6_fifo_order (transport : String → Except String Response)
    (q : List QElem) (s : AsyncThrottler) (clock : Rat)
    (h : 1 ≤ s.max_requests) :
    dispatchedUrls (eventsOf (process_requests transport q s clock)) = itemUrls q ∧
    handledUrls (eventsOf (process_requests transport q s clock)) =
      firedUrls transport q := by
  rcases process_requests_spec transport q s clock h with ⟨hev, -⟩
  rw [hev, dispatchedUrls_canonical, handledUrls_canonical]
  exact ⟨rfl, rfl⟩

/-- Witness for C6_fifo_order at a concrete two-item queue. -/
theorem C6_fifo_order_witness :
    dispatchedUrls (eventsOf (process_requests (fun _ => .ok ⟨"", 200⟩)
      [.item ⟨"x", some .retOk⟩, .item ⟨"y", some .retOk⟩, .stopSignal]
      ⟨5, 1, [], false⟩ 0)) =
      itemUrls [.item ⟨"x", some .retOk⟩, .item ⟨"y", some .retOk⟩, .stopSignal] ∧
    handledUrls (eventsOf (process_requests (fun _ => .ok ⟨"", 200⟩)
      [.item ⟨"x", some .retOk⟩, .item ⟨"y", some .retOk⟩, .stopSignal]
      ⟨5, 1, [], false⟩ 0)) =
      firedUrls (fun _ => .ok ⟨"", 200⟩)
        [.item ⟨"x", some .retOk⟩, .item ⟨"y", some .retOk⟩, .stopSignal] :=
  C6_fifo_order (fun _ => .ok ⟨"", 200⟩)
    [.item ⟨"x", some .retOk⟩, .item ⟨"y", some .retOk⟩, .stopSignal]
    ⟨5, 1, [], false⟩ 0 (by decide)

/-! ## Claim C8 -/

/-- Claim C8: enqueueing the StopSignal twice produces no error and no
second termination: the loop still exits normally exactly as with a single
StopSignal, after the same drain — the dispatched urls and the fired
handlers are identical to the single-stop run. -/
theorem C8_idempotent_stop (transport : String → Except String Response)
    (q : List QElem) (s : AsyncThrottler) (clock : Rat)
    (h : 1 ≤ s.max_requests) :
    (process_requests transport (q ++ [.stopSignal]) s clock).isTerminated = true ∧
    (process_requests transport (q ++ [.stopSignal, .stopSignal]) s
        clock).isTerminated = true ∧
    dispatchedUrls (eventsOf (process_requests transport
        (q ++ [.stopSignal, .stopSignal]) s clock)) =
      dispatchedUrls (eventsOf (process_requests transport (q ++ [.stopSignal]) s
        clock)) ∧
    handledUrls (eventsOf (process_requests transport
        (q ++ [.stopSignal, .stopSignal]) s clock)) =
      handledUrls (eventsOf (process_requests transport (q ++ [.stopSignal]) s
        clock)) := by
  rcases process_requests_spec transport (q ++ [.stopSignal]) s clock h with
    ⟨hev1, hterm1⟩
  rcases process_requests_spec transport (q ++ [.stopSignal, .stopSignal]) s clock h
    with ⟨hev2, hterm2⟩
  refine ⟨hterm1.mpr (Or.inr (by simp)), hterm2.mpr (Or.inr (by simp)), ?_, ?_⟩
  · rw [hev1, hev2, dispatchedUrls_canonical, dispatchedUrls_canonical,
      itemUrls_append, itemUrls_append]
    simp [itemUrls]
  · rw [hev1, hev2, handledUrls_canonical, handledUrls_canonical,
      firedUrls_append, firedUrls_append]
    simp [firedUrls]

/-- Witness for C8_idempotent_stop at a concrete one-item queue. -/
theorem C8_idempotent_stop_witness :
    (process_requests (fun _ => .ok ⟨"", 200⟩)
      ([.item ⟨"x", none⟩] ++ [.stopSignal]) ⟨5, 1, [], false⟩ 0).isTerminated =
      true ∧
    (process_requests (fun _ => .ok ⟨"", 200⟩)
      ([.item ⟨"x", none⟩] ++ [.stopSignal, .stopSignal])
      ⟨5, 1, [], false⟩ 0).isTerminated = true ∧
    dispatchedUrls (eventsOf (process_requests (fun _ => .ok ⟨"", 200⟩)
      ([.item ⟨"x", none⟩] ++ [.stopSignal, .stopSignal]) ⟨5, 1, [], false⟩ 0)) =
      dispatchedUrls (eventsOf (process_requests (fun _ => .ok ⟨"", 200⟩)
        ([.item ⟨"x", none⟩] ++ [.stopSignal]) ⟨5, 1, [], false⟩ 0)) ∧
    handledUrls (eventsOf (process_requests (fun _ => .ok ⟨"", 200⟩)
      ([.item ⟨"x", none⟩] ++ [.stopSignal, .stopSignal]) ⟨5, 1, [], false⟩ 0)) =
      handledUrls (eventsOf (process_requests (fun _ => .ok ⟨"", 200⟩)
        ([.item ⟨"x", none⟩] ++ [.stopSignal]) ⟨5, 1, [], false⟩ 0)) :=
  C8_idempotent_stop (fun _ => .ok ⟨"", 200⟩) [.item ⟨"x", none⟩]
    ⟨5, 1, [], false⟩ 0 (by decide)

/-! ## Claim C10 -/

/-- Claim C10: an exception raised inside the user callback (within
handle_response) is caught by make_request's catch-all like a fetch failure
— the emitted error report is the very errorReport event a transport
failure with the same message produces — and the loop goes on to process
the remaining queue. -/
theorem C10_callback_exception_isolated (transport : String → Except String Response)
    (u m : String) (resp : Response) (q : List QElem) (s : AsyncThrottler)
    (clock : Rat) (htr : transport u = .ok resp) (h : 1 ≤ s.max_requests) :
    make_request transport ⟨u, some (.throws m)⟩ =
      [.dispatched u, .callbackInvoked u resp.body,
        .errorReport u ("Error fetching " ++ u ++ ": " ++ m)] ∧
    (∀ (t2 : String → Except String Response) (r2 : RequestWrapper),
        t2 r2.url = .error m →
        make_request t2 r2 =
          [.dispatched r2.url,
            .errorReport r2.url ("Error fetching " ++ r2.url ++ ": " ++ m)]) ∧
    eventsOf (process_requests transport (.item ⟨u, some (.throws m)⟩ :: q) s clock) =
      make_request transport ⟨u, some (.throws m)⟩ ++
        canonicalEvents transport q := by
  refine ⟨?_, ?_, ?_⟩
  · simp [make_request, RequestWrapper.handle_response, htr]
  · intro t2 r2 ht2
    simp [make_request, ht2]
  · rcases process_requests_spec transport (.item ⟨u, some (.throws m)⟩ :: q) s
      clock h with ⟨hev, -⟩
    rw [hev]
    simp [canonicalEvents]

/-- Witness for C10_callback_exception_isolated: a callback that raises on a
successfully fetched item, followed by one more item. -/
theorem C10_callback_exception_isolated_witness :
    make_request (fun _ => .ok ⟨"data", 200⟩) ⟨"u", some (.throws "cb failed")⟩ =
      [.dispatched "u", .callbackInvoked "u" "data",
        .errorReport "u" ("Error fetching " ++ "u" ++ ": " ++ "cb failed")] ∧
    (∀ (t2 : String → Except String Response) (r2 : RequestWrapper),
        t2 r2.url = .error "cb failed" →
        make_request t2 r2 =
          [.dispatched r2.url,
            .errorReport r2.url ("Error fetching " ++ r2.url ++ ": " ++ "cb failed")]) ∧
    eventsOf (process_requests (fun _ => .ok ⟨"data", 200⟩)
        (.item ⟨"u", some (.throws "cb failed")⟩ :: [.item ⟨"v", none⟩, .stopSignal])
        ⟨5, 1, [], false⟩ 0) =
      make_request (fun _ => .ok ⟨"data", 200⟩) ⟨"u", some (.throws "cb failed")⟩ ++
        canonicalEvents (fun _ => .ok ⟨"data", 200⟩) [.item ⟨"v", none⟩, .stopSignal] :=
  C10_callback_exception_isolated (fun _ => .ok ⟨"data", 200⟩) "u" "cb failed"
    ⟨"data", 200⟩ [.item ⟨"v", none⟩, .stopSignal] ⟨5, 1, [], false⟩ 0
    rfl (by decide)
